import Mathlib

/-!
Verification of the CannaView screenshot service (FastAPI + Playwright glue).

The development shallowly embeds the five Python modules of the repository:

* `app/config.py`   — environment-derived settings and the domain allow-list check;
* `app/auth.py`     — the `X-API-Key` authentication guard;
* `app/models.py`   — pydantic bounds validation of the screenshot request;
* `app/screenshot.py` — the `ScreenshotService` browser-session manager and the
  `capture_screenshot` routine;
* `app/main.py`     — the `/screenshot` endpoint composing the pieces.

External Playwright calls (driver start, browser launch, page creation,
navigation, selector wait, element-count evaluation, screenshot bytes) are
modelled by an environment record `PWEnv` fixing the outcome of each call, and
wall-clock sampling is modelled by a single elapsed-milliseconds value.  Python
exceptions are modelled with a `CallResult` sum; the routine's catch-all
`except Exception` corresponds to the embedding being a total function into a
tagged result.
-/

namespace CannaView

/-! ### Character-list string primitives (Python `in`, `str.split`) -/

/-- `startsWith pat s` decides whether `pat` is a prefix of `s`. -/
def startsWith : List Char → List Char → Bool
  | [], _ => true
  | _ :: _, [] => false
  | a :: pr, b :: sr => a == b && startsWith pr sr

/-- `containsSub pat s` decides whether `pat` occurs contiguously inside `s`;
this is the semantics of Python's `pat in s` on strings. -/
def containsSub (pat : List Char) : List Char → Bool
  | [] => pat.isEmpty
  | b :: sr => startsWith pat (b :: sr) || containsSub pat sr

/-- Python's `pat in s` for strings. -/
def strIn (pat s : String) : Bool := containsSub pat.toList s.toList

/-- Python's `s.split(sep)` for a single-character separator: splitting the
empty string yields `[""]`, and adjacent separators yield empty pieces. -/
def pySplit (sep : Char) : List Char → List (List Char)
  | [] => [[]]
  | c :: rest =>
    match pySplit sep rest with
    | [] => if c == sep then [[], []] else [[c]]
    | h :: t => if c == sep then [] :: h :: t else (c :: h) :: t

/-- `pat` occurs as a contiguous substring of `s` (mathematical statement). -/
def OccursWithin (pat s : String) : Prop :=
  ∃ pre post, s.toList = pre ++ pat.toList ++ post

/-- Find the tail of `s` immediately after the first occurrence of
`marker`, if `marker` occurs in `s` at all. -/
def findAfter (marker : List Char) : List Char → Option (List Char)
  | [] => none
  | c :: rest =>
      if startsWith marker (c :: rest) then some ((c :: rest).drop marker.length)
      else findAfter marker rest

/-- The host component of a URL, defined from the spec's vocabulary (the code
itself never extracts a host — it matches against the whole URL string): the
text after the `://` scheme separator, up to the next `/`. -/
def urlHost (url : String) : String :=
  match findAfter "://".toList url.toList with
  | none => ""
  | some rest => String.mk (rest.takeWhile (fun c => ! (c == '/')))

/-! ### `app/config.py` — settings and the domain allow-list -/

/-- `Settings.API_KEY = os.getenv("API_KEY", "change-me-in-production")`. -/
def settingsAPIKey (env : Option String) : String :=
  env.getD "change-me-in-production"

/-- `Settings.ALLOWED_DOMAINS = os.getenv("ALLOWED_DOMAINS",
"easydis.io,www.easydis.io").split(",")`. -/
def settingsAllowedDomains (env : Option String) : List String :=
  List.map String.mk (pySplit ',' (env.getD "easydis.io,www.easydis.io").toList)

/-- `Settings.is_domain_allowed`: a `for` loop returning `True` as soon as some
configured domain string is contained in the URL (`if domain in url`), and
`False` after the loop. -/
def is_domain_allowed (ALLOWED_DOMAINS : List String) (url : String) : Bool :=
  ALLOWED_DOMAINS.any (fun domain => strIn domain url)

/-! ### `app/auth.py` — API-key guard -/

/-- An HTTPException detail.  Fixed messages are kept verbatim; the
domain-rejection detail, an f-string interpolating the configured list
(`f"Domain not allowed. Allowed domains: \x7bsettings.ALLOWED_DOMAINS\x7d"`),
is modelled structurally as the constructor carrying that list. -/
inductive ErrorDetail : Type
  | msg (text : String)
  | domainNotAllowed (allowedDomains : List String)
  | validationError
deriving DecidableEq, Repr

/-- Outcome of a FastAPI handler or dependency: either an `HTTPException`
with a status code and detail, or a returned value. -/
inductive HttpResult (α : Type) : Type
  | httpException (statusCode : Nat) (detail : ErrorDetail)
  | ok (value : α)
deriving DecidableEq, Repr

/-- Whether an `HttpResult` is an `HTTPException`. -/
def HttpResult.isException {α : Type} : HttpResult α → Bool
  | .httpException _ _ => true
  | .ok _ => false

/-- Python truthiness of an optional string: `None` and `""` are falsy. -/
def pyFalsyOptStr : Option String → Bool
  | none => true
  | some s => s == ""

/-- Python truthiness, positive form: a non-`None`, non-empty string. -/
def pyTruthyOptStr (o : Option String) : Bool := ! pyFalsyOptStr o

/-- `verify_api_key` from `app/auth.py`: `if not api_key` raises 401 with the
missing-key message; `if api_key != settings.API_KEY` raises 403 with
`"Invalid API Key"`; otherwise the key is returned unchanged.  The argument is
the value the `APIKeyHeader(auto_error=False)` dependency supplies. -/
def verify_api_key (API_KEY : String) (api_key : Option String) : HttpResult String :=
  if pyFalsyOptStr api_key then
    .httpException 401 (.msg "Missing API Key. Include X-API-Key header in your request.")
  else if api_key.getD "" ≠ API_KEY then
    .httpException 403 (.msg "Invalid API Key")
  else
    .ok (api_key.getD "")

/-! ### `app/models.py` — request validation -/

/-- The raw JSON body of a `/screenshot` request, before pydantic bounds
validation (the URL is kept abstract as its string form). -/
structure RawScreenshotRequest : Type where
  url : String
  width : Int
  height : Int
  wait_time : Int
  wait_for_selector : Option String
  full_page : Bool
deriving DecidableEq, Repr

/-- A validated request: the arguments `take_screenshot` passes to
`capture_screenshot`. -/
structure CaptureArgs : Type where
  url : String
  width : Int
  height : Int
  wait_time : Int
  wait_for_selector : Option String
  full_page : Bool
deriving DecidableEq, Repr

/-- Pydantic validation of `ScreenshotRequest`: `width ∈ [800, 3840]`,
`height ∈ [600, 2160]`, `wait_time ∈ [0, 60000]` (`Field(ge, le)` bounds);
out-of-bounds bodies never reach the handler (FastAPI answers 422). -/
def validateScreenshotRequest (raw : RawScreenshotRequest) : Option CaptureArgs :=
  if 800 ≤ raw.width ∧ raw.width ≤ 3840 ∧ 600 ≤ raw.height ∧ raw.height ≤ 2160 ∧
      0 ≤ raw.wait_time ∧ raw.wait_time ≤ 60000 then
    some ⟨raw.url, raw.width, raw.height, raw.wait_time, raw.wait_for_selector, raw.full_page⟩
  else none

/-! ### `app/screenshot.py` — browser session and capture routine -/

/-- The mutable state of the `ScreenshotService` singleton: whether
`self.playwright` and `self.browser` are set (non-`None`). -/
structure ScreenshotService : Type where
  playwright : Bool
  browser : Bool
deriving DecidableEq, Repr

/-- Outcome of one awaited external call: it returned a value, or raised an
exception whose `str(e)` is the given message. -/
inductive CallResult (α : Type) : Type
  | ok (value : α)
  | raised (msg : String)
deriving DecidableEq, Repr

/-- Outcomes of the external Playwright calls made during one capture, plus
the elapsed wall-clock sample used for `capture_time_ms`. -/
structure PWEnv : Type where
  startDriver : CallResult Unit
  launchBrowser : CallResult Unit
  new_page : CallResult Unit
  goto : CallResult Unit
  selectorWait : CallResult Unit
  evaluate : CallResult Nat
  screenshot : CallResult (List Nat)
  elapsedMs : Nat
deriving DecidableEq, Repr

/-- Result of running `ScreenshotService.initialize` (the idempotent init):
the new service state, how many browser instances were launched, and the
exception raised, if any (`self.playwright` is assigned before
`chromium.launch` runs, so a launch failure leaves the driver flag set). -/
structure InitOutcome : Type where
  state : ScreenshotService
  browserLaunches : Nat
  raised : Option String
deriving DecidableEq, Repr

/-- `ScreenshotService.initialize`: `if not self.playwright:` start the driver
and launch one headless browser; otherwise do nothing. -/
def ScreenshotService.initBrowser (s : ScreenshotService) (env : PWEnv) : InitOutcome :=
  if s.playwright then ⟨s, 0, none⟩
  else
    match env.startDriver with
    | .raised e => ⟨s, 0, some e⟩
    | .ok _ =>
      match env.launchBrowser with
      | .raised e => ⟨ScreenshotService.mk true s.browser, 0, some e⟩
      | .ok _ => ⟨ScreenshotService.mk true true, 1, none⟩

/-! ### Base64 encoding (`base64.b64encode(...).decode("utf-8")`) -/

/-- The standard base64 alphabet. -/
def B64_ALPHABET : List Char :=
  "ABCDEFGHIJKLMNOPQRSTUVWXYZabcdefghijklmnopqrstuvwxyz0123456789+/".toList

/-- The base64 digit for a 6-bit value. -/
def b64char (n : Nat) : Char := B64_ALPHABET.getD n 'A'

/-- Base64-encode a byte list, three bytes to four digits, with `=` padding. -/
def b64chunks : List Nat → List Char
  | [] => []
  | [a] => [b64char (a / 4), b64char (a % 4 * 16), '=', '=']
  | [a, b] => [b64char (a / 4), b64char (a % 4 * 16 + b / 16), b64char (b % 16 * 4), '=']
  | a :: b :: c :: rest =>
      b64char (a / 4) :: b64char (a % 4 * 16 + b / 16) ::
        b64char (b % 16 * 4 + c / 64) :: b64char (c % 64) :: b64chunks rest

/-- `base64.b64encode(screenshot_bytes).decode("utf-8")`. -/
def b64encode (bs : List Nat) : String := String.mk (b64chunks bs)

/-! ### Capture results -/

/-- The success dictionary of `capture_screenshot`: `image_base64` plus the
metadata fields (`capture_time_ms`, `image_size_bytes`, `url`, `dimensions`,
`product_count`). -/
structure CaptureSuccess : Type where
  image_base64 : String
  capture_time_ms : Nat
  image_size_bytes : Nat
  url : String
  width : Int
  height : Int
  product_count : Option Nat
deriving DecidableEq, Repr

/-- The failure dictionary of `capture_screenshot`: `error` plus the partial
metadata (`capture_time_ms`, `url`); it has no `image_base64` field. -/
structure CaptureFailure : Type where
  error : String
  capture_time_ms : Nat
  url : String
deriving DecidableEq, Repr

/-- The dictionary returned by `capture_screenshot`, keyed by `success`. -/
inductive CaptureResult : Type
  | ok (s : CaptureSuccess)
  | failure (f : CaptureFailure)
deriving DecidableEq, Repr

/-- The `success` flag of a capture result. -/
def CaptureResult.isSuccess : CaptureResult → Bool
  | .ok _ => true
  | .failure _ => false

/-- The `product_count` metadata entry: `none` when the result is a failure
(whose metadata has no such key), `some pc` on success. -/
def CaptureResult.productCount : CaptureResult → Option (Option Nat)
  | .ok s => some s.product_count
  | .failure _ => none

/-- The `image_base64` entry: absent (`none`) on failure. -/
def CaptureResult.image64 : CaptureResult → Option String
  | .ok s => some s.image_base64
  | .failure _ => none

/-- What one call of `capture_screenshot` produces: its returned dictionary,
the service state afterwards, the number of open pages afterwards (given the
number open at entry), and how many browser instances were launched. -/
structure CaptureOutcome : Type where
  result : CaptureResult
  state : ScreenshotService
  openPages : Nat
  browserLaunches : Nat
deriving DecidableEq, Repr

/-- `ScreenshotService.capture_screenshot`.  The body mirrors the Python
control flow: `initialize()`; `raise Exception("Browser not initialized")`
if the browser handle is absent; `new_page`; `goto`; an inner
`try/except` around `wait_for_selector` whose failure is only logged
(`env.selectorWait` is consulted but cannot change the flow);
`wait_for_timeout` (a plain sleep, modelled as unfailing);
`page.evaluate(querySelectorAll(...).length)` when `wait_for_selector` is
truthy; `page.screenshot`; base64 encoding.  The outer catch-all turns any
raise into the failure dictionary, and the `finally` block closes the page
iff one was opened (tracked by the open-page counter). -/
def capture_screenshot (st : ScreenshotService) (env : PWEnv) (args : CaptureArgs)
    (openPages : Nat) : CaptureOutcome :=
  let ini := ScreenshotService.initBrowser st env
  match ini.raised with
  | some e => ⟨.failure ⟨e, env.elapsedMs, args.url⟩, ini.state, openPages, ini.browserLaunches⟩
  | none =>
    if ini.state.browser = false then
      ⟨.failure ⟨"Browser not initialized", env.elapsedMs, args.url⟩, ini.state, openPages,
        ini.browserLaunches⟩
    else
      match env.new_page with
      | .raised e =>
          ⟨.failure ⟨e, env.elapsedMs, args.url⟩, ini.state, openPages, ini.browserLaunches⟩
      | .ok _ =>
        match env.goto with
        | .raised e =>
            ⟨.failure ⟨e, env.elapsedMs, args.url⟩, ini.state, openPages + 1 - 1,
              ini.browserLaunches⟩
        | .ok _ =>
          match (if pyTruthyOptStr args.wait_for_selector then
                   match env.evaluate with
                   | .raised e => CallResult.raised e
                   | .ok k => CallResult.ok (some k)
                 else CallResult.ok none : CallResult (Option Nat)) with
          | .raised e =>
              ⟨.failure ⟨e, env.elapsedMs, args.url⟩, ini.state, openPages + 1 - 1,
                ini.browserLaunches⟩
          | .ok pc =>
            match env.screenshot with
            | .raised e =>
                ⟨.failure ⟨e, env.elapsedMs, args.url⟩, ini.state, openPages + 1 - 1,
                  ini.browserLaunches⟩
            | .ok bytes =>
                ⟨.ok ⟨b64encode bytes, env.elapsedMs, bytes.length, args.url, args.width,
                    args.height, pc⟩, ini.state, openPages + 1 - 1, ini.browserLaunches⟩

/-! ### `app/main.py` — the `/screenshot` endpoint -/

/-- The HTTP-visible outcome of one `/screenshot` request: the response (the
success payload becomes `ScreenshotResponse(**result)`; a capture failure is
re-raised as a 500 with the capture's error string) together with whether
`capture_screenshot` was invoked at all. -/
structure EndpointTrace : Type where
  response : HttpResult CaptureSuccess
  captureInvoked : Bool
deriving DecidableEq, Repr

/-- The body of the `take_screenshot` handler, entered after authentication
and body validation: the domain allow-list check (403 with the configured
list interpolated into the detail on failure), then the capture call, whose
failure is mapped to a 500 carrying `result["error"]`. -/
def take_screenshot (ALLOWED_DOMAINS : List String) (st : ScreenshotService) (env : PWEnv)
    (openPages : Nat) (req : CaptureArgs) : EndpointTrace :=
  if is_domain_allowed ALLOWED_DOMAINS req.url = false then
    ⟨.httpException 403 (.domainNotAllowed ALLOWED_DOMAINS), false⟩
  else
    match (capture_screenshot st env req openPages).result with
    | .ok s => ⟨.ok s, true⟩
    | .failure f => ⟨.httpException 500 (.msg f.error), true⟩

/-- The full `/screenshot` request pipeline: FastAPI solves the
`verify_api_key` security dependency, then validates the body against the
`ScreenshotRequest` bounds (422 on violation), and only then runs the
handler body. -/
def screenshot_endpoint (API_KEY : String) (ALLOWED_DOMAINS : List String)
    (api_key : Option String) (raw : RawScreenshotRequest) (st : ScreenshotService)
    (env : PWEnv) (openPages : Nat) : EndpointTrace :=
  match verify_api_key API_KEY api_key with
  | .httpException c d => ⟨.httpException c d, false⟩
  | .ok _ =>
    match validateScreenshotRequest raw with
    | none => ⟨.httpException 422 .validationError, false⟩
    | some req => take_screenshot ALLOWED_DOMAINS st env openPages req

/-- Modelled from the spec: §7's error taxonomy demands that a capture attempt
with the browser process unavailable surface a distinguishable
`SessionNotReady` error; an error description is distinguishable as such when
it carries the `SessionNotReady` tag.  (The code has no such error kind — its
failures are bare strings — which is what the claim about it turns on.) -/
def isSessionNotReadyError (e : String) : Bool := strIn "SessionNotReady" e

/-! ## Theorems

First the library lemmas about the string primitives and the capture
routine's shape, then one theorem per claim. -/

theorem startsWith_iff (pat s : List Char) :
    startsWith pat s = true ↔ ∃ t, s = pat ++ t := by
  induction pat generalizing s with
  | nil => simp [startsWith]
  | cons a pr ih =>
    cases s with
    | nil => simp [startsWith]
    | cons b sr =>
      rw [show startsWith (a :: pr) (b :: sr) = (a == b && startsWith pr sr) from rfl,
        Bool.and_eq_true, beq_iff_eq, ih]
      constructor
      · rintro ⟨rfl, t, rfl⟩
        exact ⟨t, rfl⟩
      · rintro ⟨t, h⟩
        injection h with h1 h2
        exact ⟨h1.symm, t, h2⟩

theorem containsSub_iff (pat s : List Char) :
    containsSub pat s = true ↔ ∃ pre post, s = pre ++ pat ++ post := by
  induction s with
  | nil =>
    simp only [containsSub, List.isEmpty_iff]
    constructor
    · rintro rfl
      exact ⟨[], [], rfl⟩
    · rintro ⟨pre, post, h⟩
      rcases List.append_eq_nil.mp (List.append_eq_nil.mp h.symm).1 with ⟨-, h2⟩
      exact h2
  | cons b sr ih =>
    rw [show containsSub pat (b :: sr) = (startsWith pat (b :: sr) || containsSub pat sr)
        from rfl, Bool.or_eq_true, startsWith_iff, ih]
    constructor
    · rintro (⟨t, h⟩ | ⟨pre, post, h⟩)
      · exact ⟨[], t, by simpa using h⟩
      · exact ⟨b :: pre, post, by simp [h]⟩
    · rintro ⟨pre, post, h⟩
      cases pre with
      | nil => exact Or.inl ⟨post, by simpa using h⟩
      | cons p pre2 =>
        injection h with h1 h2
        exact Or.inr ⟨pre2, post, h2⟩

theorem containsSub_nil_pat (s : List Char) : containsSub [] s = true := by
  induction s with
  | nil => rfl
  | cons b sr ih => simp [containsSub, startsWith]

/-- Shape of every `capture_screenshot` run: the open-page count returns to
its entry value (the `finally` closes exactly the page the run opened, if
any), and every failure dictionary it can return carries the elapsed
milliseconds sample and the requested URL. -/
theorem capture_screenshot_shape (st : ScreenshotService) (env : PWEnv) (args : CaptureArgs)
    (n : Nat) :
    (capture_screenshot st env args n).openPages = n ∧
    ∀ f, (capture_screenshot st env args n).result = CaptureResult.failure f →
      f.capture_time_ms = env.elapsedMs ∧ f.url = args.url := by
  unfold capture_screenshot
  dsimp only
  repeat' split
  all_goals refine ⟨by simp, ?_⟩
  all_goals rintro f hf
  all_goals cases hf <;> exact ⟨rfl, rfl⟩

/-- Claim C3 (confirmed): `is_domain_allowed` returns `true` iff at least one
configured allowed-domain string occurs as a contiguous substring of the
candidate URL string — substring match over the whole URL, not exact host
match. -/
theorem is_domain_allowed_iff_substring (ALLOWED_DOMAINS : List String) (url : String) :
    is_domain_allowed ALLOWED_DOMAINS url = true ↔
      ∃ domain ∈ ALLOWED_DOMAINS, OccursWithin domain url := by
  simp [is_domain_allowed, List.any_eq_true, strIn, containsSub_iff, OccursWithin]

/-- Claim C7 (confirmed): whatever the service state, call outcomes and
arguments, after `capture_screenshot` returns the number of open pages equals
the number open at entry — the `finally` block closes the page iff one was
opened, in success and in every failure branch alike. -/
theorem capture_restores_open_page_count (st : ScreenshotService) (env : PWEnv)
    (args : CaptureArgs) (n : Nat) :
    (capture_screenshot st env args n).openPages = n :=
  (capture_screenshot_shape st env args n).1

/-- Claim C5 (confirmed): `capture_screenshot` is a total function (the
catch-all converts every raise into a result), and every failure result
carries the requested URL and the elapsed-milliseconds sample in its partial
metadata while its `image_base64` entry is absent. -/
theorem capture_failure_carries_metadata (st : ScreenshotService) (env : PWEnv)
    (args : CaptureArgs) (n : Nat) (f : CaptureFailure)
    (h : (capture_screenshot st env args n).result = CaptureResult.failure f) :
    f.url = args.url ∧ f.capture_time_ms = env.elapsedMs ∧
    (capture_screenshot st env args n).result.image64 = none := by
  obtain ⟨-, hshape⟩ := capture_screenshot_shape st env args n
  obtain ⟨h1, h2⟩ := hshape f h
  exact ⟨h2, h1, by rw [h]; rfl⟩

/-- Witness for C5: a navigation failure against an unreachable host produces
exactly the failure dictionary the theorem describes. -/
theorem capture_failure_carries_metadata_witness :
    (CaptureFailure.mk "net::ERR_NAME_NOT_RESOLVED" 7 "https://www.easydis.io/a").url =
      (CaptureArgs.mk "https://www.easydis.io/a" 1920 1080 0 none false).url ∧
    (CaptureFailure.mk "net::ERR_NAME_NOT_RESOLVED" 7 "https://www.easydis.io/a").capture_time_ms
      = 7 ∧
    (capture_screenshot ⟨false, false⟩
        ⟨.ok (), .ok (), .ok (), .raised "net::ERR_NAME_NOT_RESOLVED", .ok (), .ok 0, .ok [], 7⟩
        ⟨"https://www.easydis.io/a", 1920, 1080, 0, none, false⟩ 0).result.image64 = none :=
  capture_failure_carries_metadata ⟨false, false⟩
    ⟨.ok (), .ok (), .ok (), .raised "net::ERR_NAME_NOT_RESOLVED", .ok (), .ok 0, .ok [], 7⟩
    ⟨"https://www.easydis.io/a", 1920, 1080, 0, none, false⟩ 0
    ⟨"net::ERR_NAME_NOT_RESOLVED", 7, "https://www.easydis.io/a"⟩ (by decide)

/-- Claim C10 (confirmed): setting the `ALLOWED_DOMAINS` environment variable
to the empty string makes the configured list `[""]` (Python's
`"".split(",")`), and the empty string is a substring of every URL, so the
allow-list check then permits every domain. -/
theorem empty_domains_env_allows_all :
    settingsAllowedDomains (some "") = [""] ∧
    ∀ url : String, is_domain_allowed (settingsAllowedDomains (some "")) url = true := by
  refine ⟨rfl, fun url => ?_⟩
  show List.any [""] (fun domain => strIn domain url) = true
  simp [strIn, containsSub_nil_pat]

/-- Claim C9 (confirmed): `initialize` (modelled by
`ScreenshotService.initBrowser`) is idempotent — running it twice yields the
same session state as running it once, the second run launches no browser
instance, and when the driver is already running the call is a no-op. -/
theorem initBrowser_idempotent (s : ScreenshotService) (env : PWEnv) :
    (ScreenshotService.initBrowser (ScreenshotService.initBrowser s env).state env).state =
      (ScreenshotService.initBrowser s env).state ∧
    (ScreenshotService.initBrowser
        (ScreenshotService.initBrowser s env).state env).browserLaunches = 0 ∧
    (s.playwright = true → ScreenshotService.initBrowser s env = ⟨s, 0, none⟩) := by
  unfold ScreenshotService.initBrowser
  cases hp : s.playwright <;> cases hsd : env.startDriver <;> cases hlb : env.launchBrowser <;>
    simp [hp, hsd, hlb]

/-- Witness for C9 at an already-running session. -/
theorem initBrowser_idempotent_witness :
    ScreenshotService.initBrowser ⟨true, true⟩
        ⟨.ok (), .ok (), .ok (), .ok (), .ok (), .ok 0, .ok [], 0⟩ = ⟨⟨true, true⟩, 0, none⟩ :=
  (initBrowser_idempotent ⟨true, true⟩
    ⟨.ok (), .ok (), .ok (), .ok (), .ok (), .ok 0, .ok [], 0⟩).2.2 rfl

/-- Claim C8 (corrected): when the driver is marked started but the browser
handle is absent (crashed browser), `capture_screenshot` returns a failure
result whose error is the fixed generic string `"Browser not initialized"`,
raised as a bare `Exception` and caught by the catch-all. -/
theorem crashed_browser_generic_failure (st : ScreenshotService) (env : PWEnv)
    (args : CaptureArgs) (n : Nat) (h1 : st.playwright = true) (h2 : st.browser = false) :
    (capture_screenshot st env args n).result =
      .failure ⟨"Browser not initialized", env.elapsedMs, args.url⟩ := by
  have hI : ScreenshotService.initBrowser st env = ⟨st, 0, none⟩ := by
    unfold ScreenshotService.initBrowser
    simp [h1]
  simp [capture_screenshot, hI, h2]

/-- Witness for C8's corrected statement. -/
theorem crashed_browser_generic_failure_witness :
    (capture_screenshot ⟨true, false⟩ ⟨.ok (), .ok (), .ok (), .ok (), .ok (), .ok 0, .ok [], 9⟩
        ⟨"https://easydis.io/y", 800, 600, 0, none, false⟩ 2).result =
      .failure ⟨"Browser not initialized", 9, "https://easydis.io/y"⟩ :=
  crashed_browser_generic_failure ⟨true, false⟩
    ⟨.ok (), .ok (), .ok (), .ok (), .ok (), .ok 0, .ok [], 9⟩
    ⟨"https://easydis.io/y", 800, 600, 0, none, false⟩ 2 rfl rfl

/-- Counterexample to C8 as stated: with a crashed browser (driver flag set,
handle absent) the capture surfaces the generic string
`"Browser not initialized"`, not a distinguishable `SessionNotReady` error;
and in the never-started state the routine does not error at all — it
initializes the browser itself and succeeds. -/
theorem sessionNotReady_counterexample :
    (capture_screenshot ⟨true, false⟩ ⟨.ok (), .ok (), .ok (), .ok (), .ok (), .ok 0, .ok [], 5⟩
        ⟨"https://www.easydis.io/x", 1920, 1080, 0, none, false⟩ 0).result =
      .failure ⟨"Browser not initialized", 5, "https://www.easydis.io/x"⟩ ∧
    isSessionNotReadyError "Browser not initialized" = false ∧
    (capture_screenshot ⟨false, false⟩ ⟨.ok (), .ok (), .ok (), .ok (), .ok (), .ok 0, .ok [], 5⟩
        ⟨"https://www.easydis.io/x", 1920, 1080, 0, none, false⟩ 0).result.isSuccess = true := by
  decide

/-- Claim C6 (corrected): whenever the browser is available and page creation,
navigation, element-count evaluation and screenshotting all succeed, the
capture succeeds — a selector-wait timeout (`env.selectorWait` is
unconstrained here) is non-fatal; `product_count` is `None` when no selector
is supplied and also when the supplied selector is the empty string (Python
truthiness treats it as not supplied), and equals the evaluated
`querySelectorAll(...).length` when a non-empty selector is supplied. -/
theorem capture_product_count_spec (st : ScreenshotService) (env : PWEnv) (args : CaptureArgs)
    (n : Nat) (bs : List Nat) (k : Nat)
    (hini : (ScreenshotService.initBrowser st env).raised = none)
    (hbr : (ScreenshotService.initBrowser st env).state.browser = true)
    (hnp : env.new_page = .ok ())
    (hgoto : env.goto = .ok ())
    (heval : env.evaluate = .ok k)
    (hshot : env.screenshot = .ok bs) :
    (capture_screenshot st env args n).result.isSuccess = true ∧
    (args.wait_for_selector = none →
      (capture_screenshot st env args n).result.productCount = some none) ∧
    (args.wait_for_selector = some "" →
      (capture_screenshot st env args n).result.productCount = some none) ∧
    (∀ sel, args.wait_for_selector = some sel → sel ≠ "" →
      (capture_screenshot st env args n).result.productCount = some (some k)) := by
  have hres : (capture_screenshot st env args n).result =
      .ok ⟨b64encode bs, env.elapsedMs, bs.length, args.url, args.width, args.height,
        if pyTruthyOptStr args.wait_for_selector then some k else none⟩ := by
    unfold capture_screenshot
    dsimp only
    rw [hini, hnp, hgoto, heval, hshot]
    by_cases hts : pyTruthyOptStr args.wait_for_selector = true <;> simp [hbr, hts]
  refine ⟨by rw [hres]; rfl, fun hsel => ?_, fun hsel => ?_, fun sel hsel hne => ?_⟩
  · rw [hres]
    simp [CaptureResult.productCount, pyTruthyOptStr, pyFalsyOptStr, hsel]
  · rw [hres]
    simp [CaptureResult.productCount, pyTruthyOptStr, pyFalsyOptStr, hsel]
  · rw [hres]
    simp [CaptureResult.productCount, pyTruthyOptStr, pyFalsyOptStr, hsel, hne]

/-- Witness for C6: a capture whose 30-second selector wait times out still
succeeds, with `product_count` equal to the evaluated match count. -/
theorem capture_product_count_spec_witness :
    (capture_screenshot ⟨false, false⟩
        ⟨.ok (), .ok (), .ok (), .ok (), .raised "Timeout 30000ms exceeded", .ok 7, .ok [1, 2], 11⟩
        ⟨"https://www.easydis.io/s", 1920, 1080, 0, some "[data-slot]", false⟩
        0).result.productCount = some (some 7) :=
  (capture_product_count_spec ⟨false, false⟩
    ⟨.ok (), .ok (), .ok (), .ok (), .raised "Timeout 30000ms exceeded", .ok 7, .ok [1, 2], 11⟩
    ⟨"https://www.easydis.io/s", 1920, 1080, 0, some "[data-slot]", false⟩ 0 [1, 2] 7
    rfl rfl rfl rfl rfl rfl).2.2.2 "[data-slot]" rfl (by decide)

/-- Counterexample to C6 as stated: the empty string is a supplied selector,
yet Python's truthiness test `if wait_for_selector:` skips both the wait and
the count, so the successful capture reports `product_count = None` rather
than the number of matching elements. -/
theorem empty_selector_counterexample :
    (capture_screenshot ⟨false, false⟩
        ⟨.ok (), .ok (), .ok (), .ok (), .raised "Timeout 30000ms exceeded", .ok 7, .ok [1, 2], 11⟩
        ⟨"https://www.easydis.io/s", 1920, 1080, 0, some "", false⟩ 0).result.isSuccess = true ∧
    (capture_screenshot ⟨false, false⟩
        ⟨.ok (), .ok (), .ok (), .ok (), .raised "Timeout 30000ms exceeded", .ok 7, .ok [1, 2], 11⟩
        ⟨"https://www.easydis.io/s", 1920, 1080, 0, some "", false⟩ 0).result.productCount
      = some none ∧
    (capture_screenshot ⟨false, false⟩
        ⟨.ok (), .ok (), .ok (), .ok (), .raised "Timeout 30000ms exceeded", .ok 7, .ok [1, 2], 11⟩
        ⟨"https://www.easydis.io/s", 1920, 1080, 0, some "", false⟩ 0).result.productCount
      ≠ some (some 0) := by decide

/-- Claim C2 (corrected): `verify_api_key` answers 401 when the key is absent
and — because `if not api_key:` tests Python truthiness — also when it is the
empty string; a present non-empty key not equal to the configured secret gets
403, and a present non-empty key equal to the secret is returned unchanged. -/
theorem verify_api_key_trichotomy (API_KEY k : String) :
    verify_api_key API_KEY none =
      .httpException 401 (.msg "Missing API Key. Include X-API-Key header in your request.") ∧
    verify_api_key API_KEY (some "") =
      .httpException 401 (.msg "Missing API Key. Include X-API-Key header in your request.") ∧
    (k ≠ "" → k ≠ API_KEY →
      verify_api_key API_KEY (some k) = .httpException 403 (.msg "Invalid API Key")) ∧
    (k ≠ "" → k = API_KEY → verify_api_key API_KEY (some k) = .ok k) := by
  refine ⟨rfl, by simp [verify_api_key, pyFalsyOptStr], fun h1 h2 => ?_, fun h1 h2 => ?_⟩
  · simp [verify_api_key, pyFalsyOptStr, h1, h2]
  · subst h2
    simp [verify_api_key, pyFalsyOptStr, h1]

/-- Witness for C2's corrected statement at the default secret. -/
theorem verify_api_key_trichotomy_witness :
    verify_api_key "change-me-in-production" (some "wrong-key") =
      .httpException 403 (.msg "Invalid API Key") ∧
    verify_api_key "change-me-in-production" (some "change-me-in-production") =
      .ok "change-me-in-production" :=
  ⟨(verify_api_key_trichotomy "change-me-in-production" "wrong-key").2.2.1 (by decide) (by decide),
   (verify_api_key_trichotomy "change-me-in-production" "change-me-in-production").2.2.2
     (by decide) rfl⟩

/-- Counterexample to C2 as stated: a present-but-empty key differs from the
default secret, yet the guard answers 401 (missing key), not the claimed
403. -/
theorem empty_header_value_counterexample :
    verify_api_key "change-me-in-production" (some "") =
      .httpException 401 (.msg "Missing API Key. Include X-API-Key header in your request.") ∧
    verify_api_key "change-me-in-production" (some "") ≠
      .httpException 403 (.msg "Invalid API Key") ∧
    ("" : String) ≠ "change-me-in-production" := by decide

/-- Claim C1 (corrected): for every request whose credential passes the guard
and whose validated URL contains no configured allowed-domain substring, the
endpoint answers 403 with the configured list in the error detail and the
capture routine is never invoked. -/
theorem disallowed_url_rejected_403 (API_KEY : String) (ALLOWED_DOMAINS : List String)
    (api_key : Option String) (raw : RawScreenshotRequest) (req : CaptureArgs)
    (st : ScreenshotService) (env : PWEnv) (n : Nat) (k : String)
    (hauth : verify_api_key API_KEY api_key = .ok k)
    (hval : validateScreenshotRequest raw = some req)
    (hdom : is_domain_allowed ALLOWED_DOMAINS req.url = false) :
    screenshot_endpoint API_KEY ALLOWED_DOMAINS api_key raw st env n =
      ⟨.httpException 403 (.domainNotAllowed ALLOWED_DOMAINS), false⟩ := by
  simp [screenshot_endpoint, hauth, hval, take_screenshot, hdom]

/-- Witness for C1's corrected statement. -/
theorem disallowed_url_rejected_403_witness :
    screenshot_endpoint "secret" ["easydis.io"] (some "secret")
        ⟨"https://other.example/", 1920, 1080, 0, none, false⟩ ⟨false, false⟩
        ⟨.ok (), .ok (), .ok (), .ok (), .ok (), .ok 0, .ok [], 3⟩ 0 =
      ⟨.httpException 403 (.domainNotAllowed ["easydis.io"]), false⟩ :=
  disallowed_url_rejected_403 "secret" ["easydis.io"] (some "secret")
    ⟨"https://other.example/", 1920, 1080, 0, none, false⟩
    ⟨"https://other.example/", 1920, 1080, 0, none, false⟩ ⟨false, false⟩
    ⟨.ok (), .ok (), .ok (), .ok (), .ok (), .ok 0, .ok [], 3⟩ 0 "secret"
    (by decide) (by decide) (by decide)

/-- Counterexample to C1 as stated: the host of
`http://evil.com/easydis.io` matches no configured allowed-domain substring
under the default configuration, yet the check matches against the whole URL
string, so the request is let through (no 403) and the capture is invoked. -/
theorem host_based_allowlist_counterexample :
    urlHost "http://evil.com/easydis.io" = "evil.com" ∧
    is_domain_allowed (settingsAllowedDomains none) (urlHost "http://evil.com/easydis.io")
      = false ∧
    (screenshot_endpoint "change-me-in-production" (settingsAllowedDomains none)
        (some "change-me-in-production")
        ⟨"http://evil.com/easydis.io", 1920, 1080, 0, none, false⟩ ⟨false, false⟩
        ⟨.ok (), .ok (), .ok (), .ok (), .ok (), .ok 0, .ok [], 3⟩ 0).captureInvoked = true ∧
    (screenshot_endpoint "change-me-in-production" (settingsAllowedDomains none)
        (some "change-me-in-production")
        ⟨"http://evil.com/easydis.io", 1920, 1080, 0, none, false⟩ ⟨false, false⟩
        ⟨.ok (), .ok (), .ok (), .ok (), .ok (), .ok 0, .ok [], 3⟩ 0).response.isException
      = false := by decide

/-- Claim C4 (confirmed): a request with width, height or wait-time outside
the documented bounds never reaches the capture routine; the pipeline rejects
it with an exception response, and whenever the credential passes the guard
the rejection is precisely the 422 validation error. -/
theorem out_of_bounds_rejected_before_capture (API_KEY : String) (ALLOWED_DOMAINS : List String)
    (api_key : Option String) (raw : RawScreenshotRequest) (st : ScreenshotService)
    (env : PWEnv) (n : Nat)
    (h : raw.width < 800 ∨ 3840 < raw.width ∨ raw.height < 600 ∨ 2160 < raw.height ∨
      raw.wait_time < 0 ∨ 60000 < raw.wait_time) :
    (screenshot_endpoint API_KEY ALLOWED_DOMAINS api_key raw st env n).captureInvoked = false ∧
    (screenshot_endpoint API_KEY ALLOWED_DOMAINS api_key raw st env n).response.isException
      = true ∧
    ∀ k, verify_api_key API_KEY api_key = .ok k →
      (screenshot_endpoint API_KEY ALLOWED_DOMAINS api_key raw st env n).response =
        .httpException 422 .validationError := by
  have hv : validateScreenshotRequest raw = none := by
    unfold validateScreenshotRequest
    rw [if_neg]
    rintro ⟨h1, h2, h3, h4, h5, h6⟩
    rcases h with h | h | h | h | h | h <;> omega
  rcases hk : verify_api_key API_KEY api_key with ⟨c, d⟩ | k0 <;>
    refine ⟨?_, ?_, ?_⟩ <;>
    simp [screenshot_endpoint, hk, hv, HttpResult.isException]

/-- Witness for C4 at a width below the lower bound. -/
theorem out_of_bounds_rejected_before_capture_witness :
    (screenshot_endpoint "secret" ["easydis.io"] (some "secret")
        ⟨"https://easydis.io/", 100, 1080, 0, none, false⟩ ⟨false, false⟩
        ⟨.ok (), .ok (), .ok (), .ok (), .ok (), .ok 0, .ok [], 3⟩ 4).captureInvoked = false :=
  (out_of_bounds_rejected_before_capture "secret" ["easydis.io"] (some "secret")
    ⟨"https://easydis.io/", 100, 1080, 0, none, false⟩ ⟨false, false⟩
    ⟨.ok (), .ok (), .ok (), .ok (), .ok (), .ok 0, .ok [], 3⟩ 4 (Or.inl (by decide))).1

end CannaView
